/-
Verification of the Sensor Fusion & Metrics Derivation Engine of the
Cheap_WHOOP repository (calibration.py, merge.py, metrics.py,
workout_detector.py, app.py refresh handler).

Modelling conventions (shallow embedding):
- Timestamps are minutes since midnight of an epoch day (`Nat`); the hour of
  a timestamp is `ts / 60 % 24`, the minute-of-day is `ts % 1440`.
- Numeric sample values are rationals (`Rat`); the embedding is NaN-free,
  matching the spec rule that malformed/NaN rows are dropped before any
  statistic is computed.  Missing optional values are `Option Rat`.
- `pandas.sort_values` on the timestamp column is modelled as an insertion
  sort.  The default kind of `sort_values` leaves the relative order of rows
  with equal timestamps implementation-defined, so nothing proved here
  depends on the order of equal keys: the as-of join consumes the sorted
  lists only through per-timestamp lookups.  `drop_duplicates(subset,
  keep="last")` keeps the last occurrence of each key value, preserving the
  order of the kept rows, exactly as pandas does.
- `Series.quantile(q)` uses linear interpolation on the ascending-sorted
  values, pandas' default method.
- `pd.merge_asof(..., tolerance=1min)` matches each left row with the last
  right row at or before its timestamp, at distance at most one minute.
- Python `int()` on the nonnegative values appearing here is `Int.floor`;
  `round(x, 1)` is round-half-to-even at one decimal.
- `np.sqrt` leaves the rationals, so the square root in HRV (RMSSD) is kept
  symbolic: downstream formulas are stated for an arbitrary rational `hrv`
  input, which only strengthens the universally quantified theorems.
-/
import Mathlib

set_option maxHeartbeats 1000000
set_option maxRecDepth 4000

namespace CheapWhoop

open List

/-! ## Generic list operations shared by the embedded pipeline -/

/-- Ascending sort by a natural-number key: `df.sort_values(col)`.  pandas
leaves the relative order of equal keys implementation-defined (default
`kind="quicksort"`); this insertion sort picks one such order, and no
theorem below depends on the order of equal keys. -/
def sortByKey (key : α → ℕ) (l : List α) : List α :=
  l.insertionSort (fun a b => key a ≤ key b)

/-- `df.drop_duplicates(col, keep="last")`: retain the last row bearing each
key value, in order. -/
def dedupLastKey (key : α → ℕ) : List α → List α
  | [] => []
  | x :: xs =>
    if xs.any (fun y => key y == key x) then dedupLastKey key xs
    else x :: dedupLastKey key xs

/-- `Series.tail(n)`: the last `n` elements. -/
def lastN (n : ℕ) (l : List α) : List α :=
  l.drop (l.length - n)

/-- `Series.mean()` (the embedding is NaN-free; lists are nonempty at every
use site guarded by the code). -/
def mean (l : List ℚ) : ℚ :=
  l.sum / l.length

/-- `Series.quantile(q)` with pandas' default linear interpolation over the
ascending-sorted values. -/
def quantile (q : ℚ) (xs : List ℚ) : ℚ :=
  let v := xs.insertionSort (· ≤ ·)
  match v with
  | [] => 0
  | _ :: _ =>
    let h : ℚ := ((v.length - 1 : ℕ) : ℚ) * q
    let i : ℕ := (⌊h⌋).toNat
    let j : ℕ := (⌈h⌉).toNat
    let a := v.getD i 0
    let b := v.getD j 0
    a + (h - (i : ℚ)) * (b - a)

/-- Maximal runs of consecutive elements sharing the Boolean flag `p`:
the grouping `(flag != flag.shift()).cumsum()` used by both workout
detectors. -/
def runs (p : α → Bool) : List α → List (List α)
  | [] => []
  | x :: xs =>
    match runs p xs with
    | [] => [[x]]
    | [] :: rest => [x] :: rest
    | (y :: ys) :: rest =>
      if p x == p y then (x :: y :: ys) :: rest
      else [x] :: (y :: ys) :: rest

/-! ## Data model -/

/-- A row of the per-minute device/merged series (`timestamp, bpm, rr_ms,
spo2, sleep_stage, steps`). -/
structure Row where
  ts : ℕ
  bpm : ℚ
  rr : Option ℚ
  sleepStage : ℕ
  spo2 : Option ℚ
  steps : ℕ
deriving DecidableEq, Repr

/-- A row of the calibration input files (`timestamp, bpm, rr_ms`). -/
structure CRow where
  ts : ℕ
  bpm : ℚ
  rr : ℚ
deriving DecidableEq, Repr

/-- The persisted calibration record (`data/calibration.json`). -/
structure CalProfile where
  bpmSlope : ℚ
  bpmIntercept : ℚ
  rrSlope : ℚ
  rrIntercept : ℚ
  samples : ℕ
  errBefore : ℚ
deriving DecidableEq, Repr

/-- A row of `data/history.csv` as written by the refresh handler in
`app.py` (`date, recovery, strain, rhr, hrv, stress, readiness, steps,
weight_kg`).  Dates are day numbers. -/
structure HRow where
  date : ℕ
  recovery : ℚ
  strain : ℚ
  rhr : ℚ
  hrv : ℚ
  stress : ℚ
  readiness : ℚ
  steps : ℕ
  weight : Option ℚ
deriving DecidableEq, Repr

/-! ## calibration.py -/

/-- The backward as-of match of `pd.merge_asof(..., tolerance=1min)` for one
left timestamp `t`: the last right row at or before `t` within one minute. -/
def asofMatch (cs : List CRow) (t : ℕ) : Option CRow :=
  (cs.filter (fun c => c.ts ≤ t && t - c.ts ≤ 1)).getLast?

/-- The matched wrist/chest pairs of `calibrate_wrist_to_chest` (calibration.py
lines 41 to 47): both inputs sorted by timestamp, `merge_asof` with a one
minute tolerance, unmatched left rows dropped by `dropna()`. -/
def asofMatches (wrist chest : List CRow) : List (CRow × CRow) :=
  let cs := sortByKey CRow.ts chest
  (sortByKey CRow.ts wrist).filterMap
    (fun w => (asofMatch cs w.ts).map (fun c => (w, c)))

/-- `calibrate_wrist_to_chest` (calibration.py lines 41 to 98): fewer than 30
matched pairs yield the insufficient-data result carrying the matched count;
otherwise slopes are ratios of means, intercepts the residual of the means,
and the prior mean absolute bpm error is recorded. -/
def calibrate (wrist chest : List CRow) : Except ℕ CalProfile :=
  let m := asofMatches wrist chest
  if m.length < 30 then .error m.length
  else
    let bw := mean (m.map (fun p => p.1.bpm))
    let bc := mean (m.map (fun p => p.2.bpm))
    let bpmSlope := bc / bw
    let bpmIntercept := bc - bpmSlope * bw
    let rw := mean (m.map (fun p => p.1.rr))
    let rc := mean (m.map (fun p => p.2.rr))
    let rrSlope := rc / rw
    let rrIntercept := rc - rrSlope * rw
    let errBefore := mean (m.map (fun p => |p.1.bpm - p.2.bpm|))
    .ok ⟨bpmSlope, bpmIntercept, rrSlope, rrIntercept, m.length, errBefore⟩

/-- `apply_calibration` (calibration.py lines 101 to 127): with a stored
profile, correct `bpm` and `rr_ms` by the affine maps; with no profile file
(`FileNotFoundError`) return the data unchanged. -/
def applyCalibration (profile : Option CalProfile) (df : List CRow) : List CRow :=
  match profile with
  | none => df
  | some p =>
    df.map (fun r =>
      { r with bpm := r.bpm * p.bpmSlope + p.bpmIntercept,
               rr := r.rr * p.rrSlope + p.rrIntercept })

/-- The self-composite of a calibration profile: the affine correction
applied after itself.  Used to state what a double application actually is. -/
def calComposeSelf (p : CalProfile) : CalProfile :=
  { p with
    bpmSlope := p.bpmSlope * p.bpmSlope
    bpmIntercept := p.bpmIntercept * p.bpmSlope + p.bpmIntercept
    rrSlope := p.rrSlope * p.rrSlope
    rrIntercept := p.rrIntercept * p.rrSlope + p.rrIntercept }

/-! ## metrics.py (get_metrics and helpers) -/

/-- Hour of day of a timestamp in minutes. -/
def hourOf (ts : ℕ) : ℕ :=
  ts / 60 % 24

/-- The night window of `get_metrics` (metrics.py line 658):
`df["timestamp"].dt.hour.between(0, 6)`, hours 0 through 6 inclusive. -/
def nightRows (s : List Row) : List Row :=
  s.filter (fun r => hourOf r.ts ≤ 6)

/-- RHR (metrics.py lines 658 to 659): the 5th percentile of night heart
rate, or the default 60 when there are no night samples. -/
def rhrOf (s : List Row) : ℚ :=
  let night := nightRows s
  if night.isEmpty then 60 else quantile (1 / 20) (night.map Row.bpm)

/-- `df["steps"].max()` over the day (metrics.py line 664); 0 for an empty
series, matching the missing-column default. -/
def maxSteps (s : List Row) : ℕ :=
  (s.map Row.steps).foldr max 0

/-- Strain (metrics.py lines 669 to 672): the heart-rate component sums the
positive excess of bpm over RHR, scaled by 0.0001 and capped at 21; the step
component is 3 points per 10000 steps; the total is capped at 21. -/
def strainOf (s : List Row) : ℚ :=
  let rhr := rhrOf s
  let excess := (s.filter (fun r => rhr < r.bpm)).map (fun r => r.bpm - rhr)
  let hrStrain := min 21 (excess.sum * (1 / 10000))
  let stepStrain := ((maxSteps s : ℚ) / 10000) * 3
  min 21 (hrStrain + stepStrain)

/-- Recovery (metrics.py line 677) as a function of the HRV (RMSSD) value and
RHR: `min(100, max(33, (hrv/80)*100*(60/rhr)))`. -/
def recoveryFrom (hrv rhr : ℚ) : ℚ :=
  min 100 (max 33 ((hrv / 80) * 100 * (60 / rhr)))

/-- Recovery of a day series, as a function of the series and the (symbolic,
square-root valued) HRV input. -/
def recoveryOf (s : List Row) (hrv : ℚ) : ℚ :=
  recoveryFrom hrv (rhrOf s)

/-- Reported recovery: `int(recovery)` (metrics.py line 758), truncation of a
positive value, i.e. the floor. -/
def reportedRecovery (s : List Row) (hrv : ℚ) : ℤ :=
  ⌊recoveryOf s hrv⌋

/-- Round half to even to an integer (Python `round`). -/
def bankersRound (q : ℚ) : ℤ :=
  if q - ⌊q⌋ < 1 / 2 then ⌊q⌋
  else if 1 / 2 < q - ⌊q⌋ then ⌊q⌋ + 1
  else if Even ⌊q⌋ then ⌊q⌋ else ⌊q⌋ + 1

/-- Reported strain: `round(strain, 1)` (metrics.py line 757). -/
def reportedStrain (s : List Row) : ℚ :=
  (bankersRound (10 * strainOf s) : ℚ) / 10

/-- Duration component of the sleep score (30 points, metrics.py lines 113
to 120). -/
def durationScore (duration : ℚ) : ℚ :=
  if 7 ≤ duration ∧ duration ≤ 9 then 30
  else if 6 ≤ duration then 20 + min 10 ((duration - 6) * 10)
  else max 0 (duration * 5)

/-- Deep-sleep component of the sleep score (25 points, metrics.py lines 122
to 127). -/
def deepScore (deep : ℚ) : ℚ :=
  if 3 / 2 ≤ deep ∧ deep ≤ 5 / 2 then 25
  else max 0 (25 - |deep - 2| * 10)

/-- REM component of the sleep score (20 points, metrics.py lines 129 to
134). -/
def remScore (rem : ℚ) : ℚ :=
  if 3 / 2 ≤ rem ∧ rem ≤ 5 / 2 then 20
  else max 0 (20 - |rem - 2| * 8)

/-- Efficiency component of the sleep score (15 points, metrics.py lines 136
to 138). -/
def efficiencyScore (efficiency : ℚ) : ℚ :=
  min 15 ((efficiency / 100) * 15)

/-- HRV component of the sleep score (10 points, metrics.py lines 140 to
142). -/
def hrvSleepScore (hrv : ℚ) : ℚ :=
  min 10 ((hrv / 80) * 10)

/-- SpO2 bonus of the sleep score (metrics.py lines 144 to 149); `if
spo2_avg:` treats `None` and 0 as absent, and a zero average earns no bonus
under either reading. -/
def spo2Bonus (spo2Avg : Option ℚ) : ℚ :=
  match spo2Avg with
  | none => 0
  | some v => if v = 0 then 0 else if 95 ≤ v then 5 else if 90 ≤ v then 2 else 0

/-- `calculate_sleep_performance_score` (metrics.py lines 99 to 151): six
point-capped components — duration (30), deep sleep (25), REM (20),
efficiency (15), HRV (10) and an SpO2 bonus (5 or 2) — summed, capped at 100
and truncated to an integer. -/
def sleepScore (duration deep rem efficiency hrv : ℚ) (spo2Avg : Option ℚ) : ℤ :=
  ⌊min 100 (durationScore duration + deepScore deep + remScore rem
    + efficiencyScore efficiency + hrvSleepScore hrv + spo2Bonus spo2Avg)⌋

/-- `detect_overtraining` (metrics.py lines 241 to 308): additive risk score
over the trailing 14 snapshots (trailing 7 for the averages, first 7 versus
last 7 of the window for the trends), mapped to a four-level risk.  Returns
the pair (risk, score); histories shorter than 7 give ("unknown", 0). -/
def overtraining (history : List HRow) : String × ℕ :=
  if history.length < 7 then ("unknown", 0)
  else
    let recent := lastN 14 history
    let avgStrain := mean ((lastN 7 recent).map HRow.strain)
    let p1 : ℕ := if 16 < avgStrain then 3 else if 13 < avgStrain then 1 else 0
    let hrvTrend := mean ((lastN 7 recent).map HRow.hrv) - mean ((recent.take 7).map HRow.hrv)
    let p2 : ℕ := if hrvTrend < -10 then 3 else if hrvTrend < -5 then 1 else 0
    let rhrTrend := mean ((lastN 7 recent).map HRow.rhr) - mean ((recent.take 7).map HRow.rhr)
    let p3 : ℕ := if 5 < rhrTrend then 3 else if 2 < rhrTrend then 1 else 0
    let avgRecovery := mean ((lastN 7 recent).map HRow.recovery)
    let p4 : ℕ := if avgRecovery < 50 then 2 else 0
    let avgStress := mean ((lastN 7 recent).map HRow.stress)
    let p5 : ℕ := if 7 < avgStress then 2 else 0
    let score := p1 + p2 + p3 + p4 + p5
    let risk :=
      if 8 ≤ score then "high"
      else if 5 ≤ score then "moderate"
      else if 3 ≤ score then "low"
      else "minimal"
    (risk, score)

/-- A workout segment of `metrics.detect_workouts` (metrics.py lines 322 to
364): start/end timestamps, minute count, truncated average and maximum
heart rate, and the intensity label. -/
structure MSegment where
  start : ℕ
  stop : ℕ
  durationMin : ℕ
  avgHr : ℤ
  maxHr : ℤ
  intensity : String
deriving DecidableEq, Repr

/-- `metrics.detect_workouts` (metrics.py lines 322 to 364): baseline is the
25th percentile of bpm, the elevation threshold is baseline times 1.3, runs
of consecutive elevated minutes of length at least 10 become workouts, and
intensity compares the average heart rate against baseline times 1.6 (High)
and baseline times 1.45 (Moderate). -/
def detectWorkoutsM (s : List Row) : List MSegment :=
  if s.isEmpty then []
  else
    let baseline := quantile (1 / 4) (s.map Row.bpm)
    let threshold := baseline * (13 / 10)
    (runs (fun r => threshold < r.bpm) s).filterMap (fun g =>
      match g with
      | [] => none
      | r :: rest =>
        if threshold < r.bpm ∧ 10 ≤ (r :: rest).length then
          let avg := mean ((r :: rest).map Row.bpm)
          let mx := ((r :: rest).map Row.bpm).foldr max 0
          let intensity :=
            if baseline * (8 / 5) < avg then "High"
            else if baseline * (29 / 20) < avg then "Moderate"
            else "Light"
          some ⟨r.ts, ((r :: rest).getLast (by simp)).ts, (r :: rest).length,
                ⌊avg⌋, ⌊mx⌋, intensity⟩
        else none)

/-- A workout record of `workout_detector.detect_workouts` (workout_detector.py
lines 13 to 66): no intensity field, but a per-workout strain contribution. -/
structure DSegment where
  start : ℕ
  stop : ℕ
  durationMin : ℕ
  avgHr : ℤ
  maxHr : ℤ
  strain : ℚ
deriving DecidableEq, Repr

/-- `workout_detector.detect_workouts` (workout_detector.py lines 13 to 66):
threshold is RHR plus 20 bpm, runs of consecutive elevated minutes of length
at least 10 become workouts; strain contribution is
`min(10, (avg_hr - rhr) * duration * 0.001)`. -/
def detectWorkoutsD (s : List Row) (rhr : ℚ) : List DSegment :=
  let threshold := rhr + 20
  (runs (fun r => threshold < r.bpm) s).filterMap (fun g =>
    match g with
    | [] => none
    | r :: rest =>
      if threshold < r.bpm ∧ 10 ≤ (r :: rest).length then
        let avg := mean ((r :: rest).map Row.bpm)
        let mx := ((r :: rest).map Row.bpm).foldr max 0
        some ⟨r.ts, ((r :: rest).getLast (by simp)).ts, (r :: rest).length,
              ⌊avg⌋, ⌊mx⌋, min 10 ((avg - rhr) * (r :: rest).length * (1 / 1000))⟩
      else none)

/-! ## app.py refresh handler (history update) -/

/-- The history update of the refresh button handler (app.py lines 198 to
223): append the freshly computed snapshot row for today to the stored
history, then `drop_duplicates(subset="date", keep="last")`. -/
def refreshHistory (old : List HRow) (newRow : HRow) : List HRow :=
  dedupLastKey HRow.date (old ++ [newRow])

/-! ## Claim C2 -/

theorem bankersRound_bounds (q : ℚ) : ⌊q⌋ ≤ bankersRound q ∧ bankersRound q ≤ ⌊q⌋ + 1 := by
  unfold bankersRound
  split_ifs <;> omega

theorem bankersRound_nonneg (q : ℚ) (hq : 0 ≤ q) : 0 ≤ bankersRound q := by
  have h1 := (bankersRound_bounds q).1
  have h2 : (0 : ℤ) ≤ ⌊q⌋ := Int.floor_nonneg.mpr hq
  omega

theorem bankersRound_le (q : ℚ) (n : ℤ) (hq : q ≤ (n : ℚ)) : bankersRound q ≤ n := by
  unfold bankersRound
  have hf : ⌊q⌋ ≤ n := Int.floor_le_floor hq |>.trans_eq (Int.floor_intCast n)
  split_ifs with h1 h2 h3
  · exact hf
  all_goals
  · have hlt : (⌊q⌋ : ℚ) < q := by
      have : (1 : ℚ) / 2 ≤ q - ⌊q⌋ := by linarith
      linarith
    have : (⌊q⌋ : ℚ) < (n : ℚ) := lt_of_lt_of_le hlt hq
    have : ⌊q⌋ < n := by exact_mod_cast this
    omega

theorem strainOf_nonneg (s : List Row) : 0 ≤ strainOf s := by
  unfold strainOf
  refine le_min (by norm_num) (add_nonneg ?_ ?_)
  · refine le_min (by norm_num) (mul_nonneg ?_ (by norm_num))
    refine List.sum_nonneg ?_
    intro x hx
    obtain ⟨r, hr, rfl⟩ := List.mem_map.mp hx
    have := List.of_mem_filter hr
    have hlt : rhrOf s < r.bpm := by simpa using this
    linarith
  · positivity

theorem strainOf_le (s : List Row) : strainOf s ≤ 21 :=
  min_le_left _ _

theorem recoveryFrom_mem (hrv rhr : ℚ) :
    33 ≤ recoveryFrom hrv rhr ∧ recoveryFrom hrv rhr ≤ 100 :=
  ⟨le_min (by norm_num) (le_max_left _ _), min_le_left _ _⟩

/-- C2: for every input canonical series (heart-rate values, RR values and
step counts arbitrary; step counts are the nonnegative cumulative counters of
the data model) and every HRV value, the daily snapshot satisfies
`strain ∈ [0,21]` and `recovery ∈ [33,100]`, both for the computed values and
for the reported (rounded, truncated) values. -/
theorem C2_strain_recovery_bounds (s : List Row) (hrv : ℚ) :
    (0 ≤ strainOf s ∧ strainOf s ≤ 21) ∧
    (33 ≤ recoveryOf s hrv ∧ recoveryOf s hrv ≤ 100) ∧
    (0 ≤ reportedStrain s ∧ reportedStrain s ≤ 21) ∧
    ((33 : ℤ) ≤ reportedRecovery s hrv ∧ reportedRecovery s hrv ≤ 100) := by
  have hs0 := strainOf_nonneg s
  have hs1 := strainOf_le s
  have hr := recoveryFrom_mem hrv (rhrOf s)
  refine ⟨⟨hs0, hs1⟩, hr, ⟨?_, ?_⟩, ?_, ?_⟩
  · unfold reportedStrain
    have := bankersRound_nonneg (10 * strainOf s) (by linarith)
    positivity
  · unfold reportedStrain
    have h := bankersRound_le (10 * strainOf s) 210 (by push_cast; linarith)
    rw [div_le_iff₀ (by norm_num)]
    calc ((bankersRound (10 * strainOf s) : ℚ)) ≤ (210 : ℤ) := by exact_mod_cast h
      _ = 21 * 10 := by norm_num
  · exact Int.le_floor.mpr (by exact_mod_cast hr.1)
  · unfold reportedRecovery
    have := Int.floor_le_floor hr.2
    simpa using this

/-! ## Claim C3 -/

/-- A 29-row wrist training series (timestamps 0..28). -/
def calDemo29W : List CRow := (List.range 29).map (fun i => ⟨i, 100, 800⟩)

/-- A 29-row chest training series aligned with `calDemo29W`. -/
def calDemo29C : List CRow := (List.range 29).map (fun i => ⟨i, 95, 790⟩)

/-- A 30-row wrist training series (timestamps 0..29). -/
def calDemo30W : List CRow := (List.range 30).map (fun i => ⟨i, 100, 800⟩)

/-- A 30-row chest training series aligned with `calDemo30W`. -/
def calDemo30C : List CRow := (List.range 30).map (fun i => ⟨i, 95, 790⟩)

/-- C3: calibration fails with the insufficient-data result carrying the
matched-pair count whenever fewer than 30 time-matched pairs survive the
one-minute-tolerance join, and produces a profile (whose recorded sample
count is the matched count) whenever at least 30 pairs survive. -/
theorem C3_calibrate_min_pairs (w c : List CRow) :
    ((asofMatches w c).length < 30 →
        calibrate w c = .error (asofMatches w c).length) ∧
    (30 ≤ (asofMatches w c).length →
        ∃ p : CalProfile, calibrate w c = .ok p ∧
          p.samples = (asofMatches w c).length) := by
  constructor
  · intro h
    unfold calibrate
    rw [if_pos h]
  · intro h
    unfold calibrate
    rw [if_neg (by omega)]
    exact ⟨_, rfl, rfl⟩

/-- Witness for C3: with 29 aligned pairs calibration reports the error
carrying 29; with exactly 30 aligned pairs it succeeds and records 30. -/
theorem C3_calibrate_min_pairs_witness :
    ((asofMatches calDemo29W calDemo29C).length < 30 ∧
      calibrate calDemo29W calDemo29C
        = .error (asofMatches calDemo29W calDemo29C).length) ∧
    (30 ≤ (asofMatches calDemo30W calDemo30C).length ∧
      ∃ p : CalProfile, calibrate calDemo30W calDemo30C = .ok p ∧
        p.samples = (asofMatches calDemo30W calDemo30C).length) :=
  ⟨⟨by decide, (C3_calibrate_min_pairs calDemo29W calDemo29C).1 (by decide)⟩,
   ⟨by decide, (C3_calibrate_min_pairs calDemo30W calDemo30C).2 (by decide)⟩⟩

/-! ## Claim C4 -/

/-- A non-identity calibration profile (a pure doubling of bpm and rr). -/
def doublingProfile : CalProfile := ⟨2, 0, 2, 0, 30, 0⟩

/-- Counterexample to C4 as stated: applying a calibration profile twice
does not in general equal applying it once.  With the concrete doubling
profile, a one-row series with bpm 50 maps to 100 after one application and
to 200 after two. -/
theorem C4_apply_idempotent_counterexample :
    applyCalibration (some doublingProfile)
        (applyCalibration (some doublingProfile) [⟨0, 50, 500⟩])
      ≠ applyCalibration (some doublingProfile) [⟨0, 50, 500⟩] := by
  with_unfolding_all decide

/-- C4 amended: `apply` is a pure elementwise linear (affine) transform and
the absence of a profile is a raw passthrough; applying a profile twice
applies the self-composed affine correction (slope squared, intercept fed
through the map once more), which coincides with a single application only
when the correction is the identity on the series. -/
theorem C4_apply_linear_passthrough (p : CalProfile) (s : List CRow) :
    applyCalibration none s = s ∧
    applyCalibration (some p) (applyCalibration (some p) s)
      = applyCalibration (some (calComposeSelf p)) s := by
  refine ⟨rfl, ?_⟩
  simp only [applyCalibration, calComposeSelf]
  rw [List.map_map]
  refine List.map_congr_left ?_
  intro r _
  simp only [Function.comp]
  congr 1 <;> ring

/-! ## Claim C10 -/

theorem sum_map_affine (l : List ℚ) (k b : ℚ) :
    (l.map (fun x => x * k + b)).sum = l.sum * k + l.length * b := by
  induction l with
  | nil => simp
  | cons x l ih =>
    simp only [List.map_cons, List.sum_cons, ih, List.length_cons]
    push_cast
    ring

theorem mean_map_affine (l : List ℚ) (k b : ℚ) (hl : l ≠ []) :
    mean (l.map (fun x => x * k + b)) = mean l * k + b := by
  have h0 : l.length ≠ 0 := fun h => hl (List.length_eq_zero.mp h)
  have hn : (l.length : ℚ) ≠ 0 := Nat.cast_ne_zero.mpr h0
  unfold mean
  rw [List.length_map, sum_map_affine]
  field_simp
  ring

/-- The calibrated-bpm view of an applied profile: projecting bpm after
`apply_calibration` is the affine image of the raw bpm values. -/
theorem applyCalibration_map_bpm (p : CalProfile) (l : List CRow) :
    (applyCalibration (some p) l).map CRow.bpm
      = (l.map CRow.bpm).map (fun x => x * p.bpmSlope + p.bpmIntercept) := by
  simp only [applyCalibration]
  rw [List.map_map, List.map_map]
  rfl

/-- C10: when a calibration succeeds and the wrist means are nonzero, both
intercepts are exactly zero (exact arithmetic), so the learned correction is
a pure scaling; applying the profile to the wrist side of its own training
pairs yields a series whose bpm mean equals the chest (reference) bpm mean. -/
theorem C10_calibrate_zero_intercept (w c : List CRow) (p : CalProfile)
    (hok : calibrate w c = .ok p)
    (hbw : mean ((asofMatches w c).map (fun q => q.1.bpm)) ≠ 0)
    (hrw : mean ((asofMatches w c).map (fun q => q.1.rr)) ≠ 0) :
    p.bpmIntercept = 0 ∧ p.rrIntercept = 0 ∧
    mean ((applyCalibration (some p) ((asofMatches w c).map Prod.fst)).map CRow.bpm)
      = mean ((asofMatches w c).map (fun q => q.2.bpm)) := by
  simp only [calibrate] at hok
  by_cases hlen : (asofMatches w c).length < 30
  · rw [if_pos hlen] at hok
    exact absurd hok (by simp)
  · rw [if_neg hlen] at hok
    have hm : asofMatches w c ≠ [] := by
      intro hnil
      rw [hnil] at hlen
      simp at hlen
    injection hok with hp
    subst hp
    refine ⟨?_, ?_, ?_⟩
    · show mean ((asofMatches w c).map (fun q => q.2.bpm))
        - mean ((asofMatches w c).map (fun q => q.2.bpm))
          / mean ((asofMatches w c).map (fun q => q.1.bpm))
          * mean ((asofMatches w c).map (fun q => q.1.bpm)) = 0
      rw [div_mul_cancel₀ _ hbw, sub_self]
    · show mean ((asofMatches w c).map (fun q => q.2.rr))
        - mean ((asofMatches w c).map (fun q => q.2.rr))
          / mean ((asofMatches w c).map (fun q => q.1.rr))
          * mean ((asofMatches w c).map (fun q => q.1.rr)) = 0
      rw [div_mul_cancel₀ _ hrw, sub_self]
    · rw [applyCalibration_map_bpm]
      have hl : ((asofMatches w c).map Prod.fst).map CRow.bpm
          = (asofMatches w c).map (fun q => q.1.bpm) := by
        rw [List.map_map]
        rfl
      rw [hl]
      rw [mean_map_affine _ _ _ (by simpa using hm)]
      show mean ((asofMatches w c).map (fun q => q.1.bpm))
          * (mean ((asofMatches w c).map (fun q => q.2.bpm))
            / mean ((asofMatches w c).map (fun q => q.1.bpm)))
          + (mean ((asofMatches w c).map (fun q => q.2.bpm))
            - mean ((asofMatches w c).map (fun q => q.2.bpm))
              / mean ((asofMatches w c).map (fun q => q.1.bpm))
              * mean ((asofMatches w c).map (fun q => q.1.bpm)))
          = mean ((asofMatches w c).map (fun q => q.2.bpm))
      rw [div_mul_cancel₀ _ hbw, sub_self, add_zero, mul_comm,
        div_mul_cancel₀ _ hbw]

/-- The exact profile learned from the 30-pair demo training set. -/
def calDemoProfile : CalProfile := ⟨19 / 20, 0, 79 / 80, 0, 30, 5⟩

/-- Witness for C10 on the 30-pair demo training set: the learned intercepts
are zero and applying the profile to its own training wrist series restores
the chest mean. -/
theorem C10_calibrate_zero_intercept_witness :
    (calibrate calDemo30W calDemo30C = .ok calDemoProfile ∧
      mean ((asofMatches calDemo30W calDemo30C).map (fun q => q.1.bpm)) ≠ 0 ∧
      mean ((asofMatches calDemo30W calDemo30C).map (fun q => q.1.rr)) ≠ 0) ∧
    (calDemoProfile.bpmIntercept = 0 ∧ calDemoProfile.rrIntercept = 0 ∧
      mean ((applyCalibration (some calDemoProfile)
          ((asofMatches calDemo30W calDemo30C).map Prod.fst)).map CRow.bpm)
        = mean ((asofMatches calDemo30W calDemo30C).map (fun q => q.2.bpm))) :=
  ⟨⟨by with_unfolding_all rfl, by with_unfolding_all decide,
      by with_unfolding_all decide⟩,
    C10_calibrate_zero_intercept calDemo30W calDemo30C calDemoProfile
      (by with_unfolding_all rfl) (by with_unfolding_all decide)
      (by with_unfolding_all decide)⟩

/-! ## Claim C5 -/

/-- Counterexample to C5 as stated: the reported sleep score is not a
weighted sum of the four claimed sub-scores (sufficiency, efficiency,
consistency, sleep-stress).  Those four are determined by sleep duration,
prior-day strain, efficiency, the last days' durations and sleep-time
HR/HRV — none of which involves deep-sleep hours, and the scoring function
receives no history or prior-strain input at all.  Hence under the claim the
score would have to be a function of (duration, efficiency, hrv) alone; the
two inputs below agree on those yet score 100 and 80. -/
theorem C5_sleep_score_counterexample :
    ¬ ∃ f : ℚ → ℚ → ℚ → ℤ, ∀ (dur deep rem eff hrv : ℚ) (spo2 : Option ℚ),
        sleepScore dur deep rem eff hrv spo2 = f dur eff hrv := by
  rintro ⟨f, hf⟩
  have h1 := hf 8 2 2 100 80 none
  have h2 := hf 8 0 2 100 80 none
  rw [show sleepScore 8 2 2 100 80 none = 100 by with_unfolding_all decide] at h1
  rw [show sleepScore 8 0 2 100 80 none = 80 by with_unfolding_all decide] at h2
  omega

theorem durationScore_mem (d : ℚ) : 0 ≤ durationScore d ∧ durationScore d ≤ 30 := by
  unfold durationScore
  split_ifs with h1 h2
  · norm_num
  · constructor
    · have : (0 : ℚ) ≤ min 10 ((d - 6) * 10) := le_min (by norm_num) (by linarith)
      linarith
    · have : min 10 ((d - 6) * 10) ≤ 10 := min_le_left _ _
      linarith
  · push_neg at h2
    exact ⟨le_max_left _ _, max_le (by norm_num) (by linarith)⟩

theorem deepScore_mem (x : ℚ) : 0 ≤ deepScore x ∧ deepScore x ≤ 25 := by
  unfold deepScore
  split_ifs with h1
  · norm_num
  · have h0 : (0 : ℚ) ≤ |x - 2| * 10 := by positivity
    exact ⟨le_max_left _ _, max_le (by norm_num) (by linarith)⟩

theorem remScore_mem (x : ℚ) : 0 ≤ remScore x ∧ remScore x ≤ 20 := by
  unfold remScore
  split_ifs with h1
  · norm_num
  · have h0 : (0 : ℚ) ≤ |x - 2| * 8 := by positivity
    exact ⟨le_max_left _ _, max_le (by norm_num) (by linarith)⟩

theorem spo2Bonus_mem (v : Option ℚ) : 0 ≤ spo2Bonus v ∧ spo2Bonus v ≤ 5 := by
  cases v with
  | none => simp [spo2Bonus]
  | some x =>
    simp only [spo2Bonus]
    split_ifs <;> norm_num

/-- C5 amended: the reported sleep score is the integer truncation of the
capped sum of six point-capped components — duration (30), deep sleep (25),
REM (20), efficiency (15), HRV (10) and an SpO2 bonus (5) — and is therefore
bounded to [0,100] for the nonnegative duration, efficiency and HRV values
the pipeline produces. -/
theorem C5_sleep_score_bounds (dur deep rem eff hrv : ℚ) (spo2 : Option ℚ)
    (heff : 0 ≤ eff) (hhrv : 0 ≤ hrv) :
    0 ≤ sleepScore dur deep rem eff hrv spo2 ∧
      sleepScore dur deep rem eff hrv spo2 ≤ 100 := by
  have hd := durationScore_mem dur
  have hdp := deepScore_mem deep
  have hr := remScore_mem rem
  have he : 0 ≤ efficiencyScore eff ∧ efficiencyScore eff ≤ 15 :=
    ⟨le_min (by norm_num)
      (mul_nonneg (div_nonneg heff (by norm_num)) (by norm_num)), min_le_left _ _⟩
  have hh : 0 ≤ hrvSleepScore hrv ∧ hrvSleepScore hrv ≤ 10 :=
    ⟨le_min (by norm_num)
      (mul_nonneg (div_nonneg hhrv (by norm_num)) (by norm_num)), min_le_left _ _⟩
  have hs := spo2Bonus_mem spo2
  unfold sleepScore
  constructor
  · refine Int.le_floor.mpr ?_
    push_cast
    refine le_min (by norm_num) ?_
    linarith [hd.1, hdp.1, hr.1, he.1, hh.1, hs.1]
  · have h1 : ⌊min 100 (durationScore dur + deepScore deep + remScore rem
        + efficiencyScore eff + hrvSleepScore hrv + spo2Bonus spo2)⌋ ≤ ⌊(100 : ℚ)⌋ :=
      Int.floor_le_floor (min_le_left _ _)
    simpa using h1

/-- Witness for C5 amended at a typical sleep profile (8h sleep, 2h deep, 2h
REM, efficiency 100, HRV 80, no SpO2 data). -/
theorem C5_sleep_score_bounds_witness :
    ((0 : ℚ) ≤ 100 ∧ (0 : ℚ) ≤ 80) ∧
    (0 ≤ sleepScore 8 2 2 100 80 none ∧ sleepScore 8 2 2 100 80 none ≤ 100) :=
  ⟨⟨by norm_num, by norm_num⟩,
    C5_sleep_score_bounds 8 2 2 100 80 none (by norm_num) (by norm_num)⟩

/-! ## Claim C6 -/

theorem mean_replicate (n : ℕ) (hn : n ≠ 0) (x : ℚ) :
    mean (List.replicate n x) = x := by
  unfold mean
  rw [List.sum_replicate, List.length_replicate, nsmul_eq_mul]
  exact mul_div_cancel_left₀ x (Nat.cast_ne_zero.mpr hn)

/-- A seven-day history with constant strain 18, recovery 40, RHR, HRV and
stress (readiness 50, steps 0). -/
def hist7 (hv rv sv : ℚ) : List HRow :=
  (List.range 7).map (fun i => ⟨i, 40, 18, rv, hv, sv, 50, 0, none⟩)

/-- Counterexample to C6 as stated: seven days of strain 18 and recovery 40
with constant HRV and RHR score 3 (strain) + 2 (recovery) = 5 under the
documented additive scoring — the trend factors contribute nothing because
the head-7 and tail-7 means of a constant week coincide — so the detector
returns "moderate", not "high". -/
theorem C6_overtraining_counterexample :
    overtraining (hist7 50 60 5) = ("moderate", 5) ∧ ("moderate" : String) ≠ "high" := by
  constructor
  · with_unfolding_all decide
  · decide

/-- C6 amended: for a history of exactly 7 daily snapshots each with
strain=18 and recovery=40 and with HRV, RHR and stress constant, the
overtraining detector returns risk "moderate" (score 5, or 7 when the
constant stress exceeds 7) — not "high": the constant week leaves both trend
factors at zero, so the additive score cannot reach 8. -/
theorem C6_overtraining_constant_week_moderate (hv rv sv : ℚ) :
    (overtraining (hist7 hv rv sv)).1 = "moderate" := by
  have hlen : (hist7 hv rv sv).length = 7 := by
    simp [hist7]
  have h14 : lastN 14 (hist7 hv rv sv) = hist7 hv rv sv := by
    unfold lastN
    rw [hlen]
    rfl
  have h7 : lastN 7 (hist7 hv rv sv) = hist7 hv rv sv := by
    unfold lastN
    rw [hlen]
    rfl
  have htake : (hist7 hv rv sv).take 7 = hist7 hv rv sv :=
    List.take_of_length_le (le_of_eq hlen)
  have hstrain : mean ((hist7 hv rv sv).map HRow.strain) = 18 := by
    have h : (hist7 hv rv sv).map HRow.strain = List.replicate 7 (18 : ℚ) := by
      rfl
    rw [h, mean_replicate 7 (by norm_num)]
  have hhrv : mean ((hist7 hv rv sv).map HRow.hrv) = hv := by
    have h : (hist7 hv rv sv).map HRow.hrv = List.replicate 7 hv := by
      rfl
    rw [h, mean_replicate 7 (by norm_num)]
  have hrhr : mean ((hist7 hv rv sv).map HRow.rhr) = rv := by
    have h : (hist7 hv rv sv).map HRow.rhr = List.replicate 7 rv := by
      rfl
    rw [h, mean_replicate 7 (by norm_num)]
  have hrec : mean ((hist7 hv rv sv).map HRow.recovery) = 40 := by
    have h : (hist7 hv rv sv).map HRow.recovery = List.replicate 7 (40 : ℚ) := by
      rfl
    rw [h, mean_replicate 7 (by norm_num)]
  have hstress : mean ((hist7 hv rv sv).map HRow.stress) = sv := by
    have h : (hist7 hv rv sv).map HRow.stress = List.replicate 7 sv := by
      rfl
    rw [h, mean_replicate 7 (by norm_num)]
  simp only [overtraining, hlen, h14, h7, htake, hstrain, hhrv, hrhr, hrec, hstress]
  norm_num
  by_cases hsv : 7 < sv
  · simp [hsv]
  · simp [hsv]

/-! ## Claim C7 -/

/-- A minute series: 12 baseline minutes at 60 bpm then a 15-minute plateau
at 110 bpm (RHR is 60, so the plateau average is RHR + 50). -/
def plateau15 : List Row :=
  (List.range 12).map (fun i => ⟨i, 60, none, 0, none, 0⟩)
    ++ (List.range 15).map (fun i => ⟨12 + i, 110, none, 0, none, 0⟩)

/-- The same series with the plateau cut to 8 minutes. -/
def plateau8 : List Row :=
  (List.range 12).map (fun i => ⟨i, 60, none, 0, none, 0⟩)
    ++ (List.range 8).map (fun i => ⟨12 + i, 110, none, 0, none, 0⟩)

/-- Counterexample to C7 as stated: on the series with a 15-minute plateau
averaging RHR + 50 (RHR = baseline = 60), the detector returns one segment of
duration 15 but classifies it "High", because metrics.detect_workouts
compares the average against baseline*1.6 = 96 and baseline*1.45 = 87 (the
25th-percentile baseline, multiplicative thresholds) — not against RHR+60 =
120 and RHR+45 = 105, under which 110 would be "Moderate". -/
theorem C7_workout_intensity_counterexample :
    rhrOf plateau15 = 60 ∧
    (detectWorkoutsM plateau15).map (fun g => (g.durationMin, g.intensity))
      = [(15, "High")] := by
  constructor
  · with_unfolding_all decide
  · with_unfolding_all decide

/-- C7 amended: the 15-minute plateau at baseline + 50 yields exactly one
segment of duration 15 in both detectors, classified "High" by the metrics
detector (whose thresholds are multiplicative in the 25th-percentile
baseline); the 8-minute plateau yields zero segments in both. -/
theorem C7_workout_detection_amended :
    detectWorkoutsM plateau15 = [⟨12, 26, 15, 110, 110, "High"⟩] ∧
    detectWorkoutsM plateau8 = [] ∧
    detectWorkoutsD plateau15 (rhrOf plateau15) = [⟨12, 26, 15, 110, 110, 3 / 4⟩] ∧
    detectWorkoutsD plateau8 (rhrOf plateau8) = [] := by
  refine ⟨?_, ?_, ?_, ?_⟩ <;> with_unfolding_all decide

/-! ## Claim C8 -/

/-- A series whose only sample sits at 06:30 (minute 390), heart rate 100. -/
def lateSample : List Row := [⟨390, 100, none, 0, none, 0⟩]

/-- Counterexample to C8 as stated: the series whose only sample sits at
06:30 has no sample timestamped between 00:00 and 06:00 (minute 360), so the
claim would give the default RHR 60; but `dt.hour.between(0, 6)` includes
the whole hour 6, so the code computes RHR 100 from that sample. -/
theorem C8_rhr_window_counterexample :
    (lateSample.filter (fun r => r.ts ≤ 360)).length = 0 ∧
    rhrOf lateSample = 100 ∧ rhrOf lateSample ≠ 60 := by
  refine ⟨by decide, ?_, ?_⟩
  · with_unfolding_all decide
  · with_unfolding_all decide

theorem night_window_iff (ts : ℕ) : hourOf ts ≤ 6 ↔ ts % 1440 < 420 := by
  unfold hourOf
  omega

/-- C8 amended: RHR equals the 5th percentile (linear interpolation) of
heart rate over exactly the samples timestamped strictly before 07:00 of
their day (hours 0 through 6 inclusive), and defaults to 60 when there are
no such samples. -/
theorem C8_rhr_night_window (s : List Row) :
    rhrOf s = (if (s.filter (fun r => r.ts % 1440 < 420)).isEmpty then 60
      else quantile (1 / 20) ((s.filter (fun r => r.ts % 1440 < 420)).map Row.bpm)) := by
  have hfe : nightRows s = s.filter (fun r => r.ts % 1440 < 420) := by
    unfold nightRows
    refine List.filter_congr ?_
    intro r _
    simp only [decide_eq_decide]
    exact night_window_iff r.ts
  rw [rhrOf, hfe]

/-! ## Claim C9 -/

/-- C9: a refresh over a prior history store (one row per date) leaves every
other date's snapshot unchanged and in place, and ends with exactly the new
snapshot as the sole row for today's date (last-write-wins). -/
theorem C9_refresh_history (old : List HRow) (newRow : HRow)
    (hnd : (old.map HRow.date).Nodup) :
    refreshHistory old newRow
      = old.filter (fun r => r.date != newRow.date) ++ [newRow] := by
  induction old with
  | nil => simp [refreshHistory, dedupLastKey]
  | cons x xs ih =>
    rw [List.map_cons, List.nodup_cons] at hnd
    obtain ⟨hx, hxs⟩ := hnd
    have ih2 := ih hxs
    unfold refreshHistory at ih2 ⊢
    rw [List.cons_append]
    by_cases hxd : x.date = newRow.date
    · have hany : ((xs ++ [newRow]).any (fun y => y.date == x.date)) = true := by
        rw [List.any_eq_true]
        exact ⟨newRow, by simp, by simp [hxd]⟩
      rw [dedupLastKey, if_pos hany, ih2, List.filter_cons]
      have hne : (x.date != newRow.date) = false := by simp [hxd]
      rw [hne]
      simp
    · have hany : ((xs ++ [newRow]).any (fun y => y.date == x.date)) = false := by
        rw [List.any_eq_false]
        intro y hy hcontra
        have hyd : y.date = x.date := by simpa using hcontra
        rcases List.mem_append.mp hy with hyxs | hyn
        · exact hx (hyd ▸ List.mem_map_of_mem HRow.date hyxs)
        · have hyn2 : y = newRow := by simpa using hyn
          exact hxd ((hyn2 ▸ hyd).symm)
      rw [dedupLastKey, if_neg (by simp [hany]), ih2, List.filter_cons]
      have hne : (x.date != newRow.date) = true := by simp [hxd]
      rw [hne]
      simp

/-- A two-day prior history (dates 0 and 1). -/
def oldHist : List HRow :=
  [⟨0, 50, 5, 60, 50, 3, 70, 1000, none⟩, ⟨1, 60, 6, 58, 55, 4, 75, 2000, none⟩]

/-- The freshly computed snapshot for today (date 1, replacing the stored
one). -/
def todayRow : HRow := ⟨1, 70, 7, 57, 60, 2, 80, 3000, some 70⟩

/-- Witness for C9: refreshing the two-day history with a new snapshot for
date 1 keeps date 0 untouched and replaces date 1 with the new row. -/
theorem C9_refresh_history_witness :
    (oldHist.map HRow.date).Nodup ∧
    refreshHistory oldHist todayRow
      = oldHist.filter (fun r => r.date != todayRow.date) ++ [todayRow] :=
  ⟨by decide, C9_refresh_history oldHist todayRow (by decide)⟩

end CheapWhoop
